import Mathlib

/-!
Shallow embedding of the wound-assessment program (`main.py`) and proofs of
its specified properties.

The program validates three untyped inputs (wound area, pain level, exudate
level), classifies the validated triple as Good / Warning / Critical, and
wraps the result in a tagged API response.  Python floats are modelled as
exact rationals extended with infinities and NaN; Python's dynamically typed
raw inputs are modelled by the inductive type `PyVal`; a Python call that can
let an exception propagate (the validator catches `TypeError` and
`ValueError` but not `OverflowError`) returns a `PyOutcome`.
-/

/-! ### ASCII character helpers (models of Python `str` case methods) -/

/-- Helper: `Char.ofNat` round-trips through `toNat` on valid code points. -/
theorem toNat_ofNat_valid (n : ℕ) (h : n.isValidChar) : (Char.ofNat n).toNat = n := by
  simp only [Char.ofNat, h, dif_pos, Char.ofNatAux, Char.toNat]
  rfl

/-- Helper: two characters with the same code point are equal. -/
theorem char_eq_of_toNat_eq {a b : Char} (h : a.toNat = b.toNat) : a = b := by
  rw [← Char.ofNat_toNat a, ← Char.ofNat_toNat b, h]

/-- Model of ASCII uppercasing of a single character, as Python's `str.upper`
acts on ASCII letters (code points 97–122 map down by 32). -/
def pyToUpper (c : Char) : Char :=
  if 97 ≤ c.toNat ∧ c.toNat ≤ 122 then Char.ofNat (c.toNat - 32) else c

/-- Model of ASCII lowercasing of a single character, as Python's `str.lower`
acts on ASCII letters (code points 65–90 map up by 32). -/
def pyToLower (c : Char) : Char :=
  if 65 ≤ c.toNat ∧ c.toNat ≤ 90 then Char.ofNat (c.toNat + 32) else c

/-- Model of Python's whitespace test `str.isspace` — the code points that
`str.strip()` and `float()` treat as surrounding whitespace. -/
def isPySpace (c : Char) : Bool :=
  decide (c.toNat ∈ [9, 10, 11, 12, 13, 28, 29, 30, 31, 32, 133, 160, 0x1680,
    0x2000, 0x2001, 0x2002, 0x2003, 0x2004, 0x2005, 0x2006, 0x2007, 0x2008,
    0x2009, 0x200A, 0x2028, 0x2029, 0x202F, 0x205F, 0x3000])

theorem pyToUpper_toNat (c : Char) (h : 97 ≤ c.toNat ∧ c.toNat ≤ 122) :
    (pyToUpper c).toNat = c.toNat - 32 := by
  rw [pyToUpper, if_pos h, toNat_ofNat_valid]
  left
  omega

theorem pyToLower_toNat (c : Char) (h : 65 ≤ c.toNat ∧ c.toNat ≤ 90) :
    (pyToLower c).toNat = c.toNat + 32 := by
  rw [pyToLower, if_pos h, toNat_ofNat_valid]
  left
  omega

theorem pyToUpper_idem (c : Char) : pyToUpper (pyToUpper c) = pyToUpper c := by
  by_cases h : 97 ≤ c.toNat ∧ c.toNat ≤ 122
  · have h2 := pyToUpper_toNat c h
    conv_lhs => rw [pyToUpper]
    rw [if_neg (by omega)]
  · conv_lhs => rw [pyToUpper]
    rw [if_neg (by rw [pyToUpper, if_neg h]; exact h)]

theorem pyToLower_idem (c : Char) : pyToLower (pyToLower c) = pyToLower c := by
  by_cases h : 65 ≤ c.toNat ∧ c.toNat ≤ 90
  · have h2 := pyToLower_toNat c h
    conv_lhs => rw [pyToLower]
    rw [if_neg (by omega)]
  · conv_lhs => rw [pyToLower]
    rw [if_neg (by rw [pyToLower, if_neg h]; exact h)]

theorem pyToUpper_pyToLower (c : Char) : pyToUpper (pyToLower c) = pyToUpper c := by
  by_cases h : 65 ≤ c.toNat ∧ c.toNat ≤ 90
  · have h2 := pyToLower_toNat c h
    apply char_eq_of_toNat_eq
    rw [pyToUpper_toNat _ (by omega), h2, pyToUpper, if_neg (by omega)]
    omega
  · rw [pyToLower, if_neg h]

theorem isPySpace_pyToUpper (c : Char) : isPySpace (pyToUpper c) = isPySpace c := by
  by_cases h : 97 ≤ c.toNat ∧ c.toNat ≤ 122
  · have h2 := pyToUpper_toNat c h
    simp only [isPySpace, h2, decide_eq_decide, List.mem_cons, List.mem_nil_iff,
      or_false]
    omega
  · rw [pyToUpper, if_neg h]

theorem isPySpace_pyToLower (c : Char) : isPySpace (pyToLower c) = isPySpace c := by
  by_cases h : 65 ≤ c.toNat ∧ c.toNat ≤ 90
  · have h2 := pyToLower_toNat c h
    simp only [isPySpace, h2, decide_eq_decide, List.mem_cons, List.mem_nil_iff,
      or_false]
    omega
  · rw [pyToLower, if_neg h]

/-! ### Models of Python `str.strip` and `str.capitalize` -/

/-- Model of Python `str.strip()` on the character list: remove leading and
trailing whitespace. -/
def stripList (l : List Char) : List Char :=
  ((l.dropWhile isPySpace).reverse.dropWhile isPySpace).reverse

/-- Model of Python `str.strip()`. -/
def pyStrip (s : String) : String := ⟨stripList s.data⟩

/-- Model of Python `str.capitalize()` on the character list: first character
uppercased, the remaining characters lowercased. -/
def capList : List Char → List Char
  | [] => []
  | c :: cs => pyToUpper c :: cs.map pyToLower

/-- Model of Python `str.capitalize()`. -/
def pyCapitalize (s : String) : String := ⟨capList s.data⟩

/-- The canonical form of an exudate token: trim surrounding whitespace, then
capitalize (exactly the normalization done inside `validate_inputs`). -/
def canonicalizeExudate (s : String) : String := pyCapitalize (pyStrip s)

theorem dropWhile_eq_self_of_head {p : Char → Bool} {l : List Char}
    (h : ∀ c, l.head? = some c → p c = false) : List.dropWhile p l = l := by
  cases l with
  | nil => rfl
  | cons c cs =>
      rw [List.dropWhile_cons, h c rfl]
      simp

theorem head_dropWhile_false {p : Char → Bool} {l : List Char} {c : Char}
    (h : (List.dropWhile p l).head? = some c) : p c = false := by
  induction l with
  | nil => simp [List.dropWhile] at h
  | cons a l ih =>
      rw [List.dropWhile_cons] at h
      cases hpa : p a with
      | true => exact ih (by rwa [hpa, if_pos rfl] at h)
      | false =>
          rw [hpa, if_neg (by simp)] at h
          simp only [List.head?_cons, Option.some.injEq] at h
          rw [← h]
          exact hpa

theorem stripList_head {l : List Char} {c : Char}
    (h : (stripList l).head? = some c) : isPySpace c = false := by
  unfold stripList at h
  rcases hu : List.dropWhile isPySpace l with _ | ⟨a, us⟩
  · rw [hu] at h
    simp at h
  · have hpa : isPySpace a = false := head_dropWhile_false (by rw [hu]; rfl)
    rw [hu] at h
    simp only [List.reverse_cons] at h
    rw [List.dropWhile_append] at h
    by_cases he : (List.dropWhile isPySpace us.reverse).isEmpty = true
    · rw [if_pos he] at h
      simp [hpa] at h
      rw [← h]
      exact hpa
    · rw [if_neg he] at h
      rw [List.reverse_append] at h
      simp at h
      rw [← h]
      exact hpa

theorem stripList_revhead {l : List Char} {c : Char}
    (h : (stripList l).reverse.head? = some c) : isPySpace c = false := by
  unfold stripList at h
  rw [List.reverse_reverse] at h
  exact head_dropWhile_false h

theorem stripList_eq_self {l : List Char}
    (h1 : ∀ c, l.head? = some c → isPySpace c = false)
    (h2 : ∀ c, l.reverse.head? = some c → isPySpace c = false) :
    stripList l = l := by
  unfold stripList
  rw [dropWhile_eq_self_of_head h1, dropWhile_eq_self_of_head h2,
    List.reverse_reverse]

theorem stripList_idem (l : List Char) : stripList (stripList l) = stripList l :=
  stripList_eq_self (fun _ h => stripList_head h) (fun _ h => stripList_revhead h)

theorem capList_head_space {m : List Char}
    (hm : ∀ c, m.head? = some c → isPySpace c = false) :
    ∀ c, (capList m).head? = some c → isPySpace c = false := by
  cases m with
  | nil => intro c h; simp [capList] at h
  | cons d ds =>
      intro c h
      simp only [capList, List.head?_cons, Option.some.injEq] at h
      rw [← h, isPySpace_pyToUpper]
      exact hm d rfl

theorem capList_revhead_space {m : List Char}
    (hm : ∀ c, m.reverse.head? = some c → isPySpace c = false) :
    ∀ c, (capList m).reverse.head? = some c → isPySpace c = false := by
  cases m with
  | nil => intro c h; simp [capList] at h
  | cons d ds =>
      intro c h
      simp only [capList, List.reverse_cons] at h
      rcases hds : ds.reverse with _ | ⟨e, es⟩
      · have hds' : ds = [] := by
          have := congrArg List.reverse hds
          simpa using this
        subst hds'
        simp at h
        rw [← h, isPySpace_pyToUpper]
        apply hm
        simp
      · rw [← List.map_reverse, hds] at h
        simp only [List.map_cons, List.cons_append, List.head?_cons,
          Option.some.injEq] at h
        rw [← h, isPySpace_pyToLower]
        apply hm e
        rw [List.reverse_cons, hds]
        rfl

theorem capList_capList (m : List Char) : capList (capList m) = capList m := by
  cases m with
  | nil => rfl
  | cons d ds =>
      simp only [capList, pyToUpper_idem, List.map_map, List.cons.injEq, true_and]
      have : pyToLower ∘ pyToLower = pyToLower := funext pyToLower_idem
      rw [this]

theorem capList_map_lower_congr {m n : List Char}
    (h : m.map pyToLower = n.map pyToLower) : capList m = capList n := by
  cases m with
  | nil =>
      cases n with
      | nil => rfl
      | cons e es => simp at h
  | cons d ds =>
      cases n with
      | nil => simp at h
      | cons e es =>
          simp only [List.map_cons, List.cons.injEq] at h
          simp only [capList, List.cons.injEq]
          constructor
          · rw [← pyToUpper_pyToLower d, ← pyToUpper_pyToLower e, h.1]
          · exact h.2

theorem canonList_idem (l : List Char) :
    capList (stripList (capList (stripList l))) = capList (stripList l) := by
  rw [stripList_eq_self
    (capList_head_space (fun _ h => stripList_head h))
    (capList_revhead_space (fun _ h => stripList_revhead h))]
  exact capList_capList _

theorem canonicalizeExudate_idem (s : String) :
    canonicalizeExudate (canonicalizeExudate s) = canonicalizeExudate s := by
  simp only [canonicalizeExudate, pyCapitalize, pyStrip]
  exact congrArg String.mk (canonList_idem s.data)

theorem canonicalizeExudate_pyStrip (s : String) :
    canonicalizeExudate (pyStrip s) = canonicalizeExudate s := by
  simp only [canonicalizeExudate, pyCapitalize, pyStrip]
  rw [stripList_idem]

/-! ### Model of Python float values and of `float(...)` conversion -/

/-- Model of a Python float: an exact finite rational, an infinity, or NaN. -/
inductive PyFloat where
  | finite (q : ℚ)
  | posInf
  | negInf
  | nan
deriving DecidableEq

/-- Model of `math.isfinite`. -/
def PyFloat.isfinite : PyFloat → Bool
  | .finite _ => true
  | _ => false

/-- Model of the `<` comparison on Python floats (false whenever NaN is
involved). -/
def PyFloat.lt : PyFloat → PyFloat → Bool
  | .finite a, .finite b => decide (a < b)
  | .nan, _ => false
  | _, .nan => false
  | .negInf, .negInf => false
  | .posInf, .posInf => false
  | .negInf, _ => true
  | _, .negInf => false
  | _, .posInf => true
  | .posInf, _ => false

/-- Model of the `>` comparison on Python floats. -/
def PyFloat.gt (a b : PyFloat) : Bool := PyFloat.lt b a

/-- Negation of a Python float. -/
def PyFloat.neg : PyFloat → PyFloat
  | .finite q => .finite (-q)
  | .posInf => .negInf
  | .negInf => .posInf
  | .nan => .nan

/-- Model of a raw dynamically typed Python value as it may reach the
validation layer: `None`, a bool, an int, a float, or a string. -/
inductive PyVal where
  | pyNone
  | bool (b : Bool)
  | int (n : ℤ)
  | float (f : PyFloat)
  | str (s : String)
deriving DecidableEq

/-- Whether a raw value is a string (model of `isinstance(x, str)`). -/
def PyVal.isStr : PyVal → Bool
  | .str _ => true
  | _ => false

/-- Numeric value of a digit list (most significant first). -/
def digitsNat (cs : List Char) : ℕ :=
  cs.foldl (fun a c => a * 10 + (c.toNat - 48)) 0

/-- Well-formedness of the tail of a PEP 515 digit run: digits, where each
single underscore must be followed by a digit. -/
def digitRunTail : List Char → Bool
  | [] => true
  | ['_'] => false
  | '_' :: c :: cs => c.isDigit && digitRunTail cs
  | c :: cs => c.isDigit && digitRunTail cs

/-- Whether a character list is a PEP 515 digit run: a non-empty digit
sequence in which single underscores may separate two digits, as Python's
`float` accepts (`float("1_0") == 10.0`). -/
def isDigitRun (cs : List Char) : Bool :=
  match cs with
  | [] => false
  | c :: rest => c.isDigit && digitRunTail rest

/-- Drop the PEP 515 underscores before reading the digits of a run. -/
def dropUnderscores (cs : List Char) : List Char := cs.filter (fun c => c ≠ '_')

/-- Parse the mantissa of a float literal: digit runs with an optional
decimal point, at least one digit overall. -/
def parseMantissa (cs : List Char) : Option ℚ :=
  let ip := cs.takeWhile (fun c => c ≠ '.')
  let rest := cs.dropWhile (fun c => c ≠ '.')
  match rest with
  | [] =>
      if isDigitRun cs then some (digitsNat (dropUnderscores cs) : ℚ)
      else Option.none
  | _ :: fp =>
      if (ip.isEmpty || isDigitRun ip) && (fp.isEmpty || isDigitRun fp) &&
          !(ip.isEmpty && fp.isEmpty) then
        some ((digitsNat (dropUnderscores ip) : ℚ) +
          (digitsNat (dropUnderscores fp) : ℚ) / ((10 : ℚ) ^ (dropUnderscores fp).length))
      else Option.none

/-- Parse the exponent of a float literal: an optional sign and a digit run. -/
def parseExpPart (cs : List Char) : Option ℤ :=
  match cs with
  | '+' :: ds =>
      if isDigitRun ds then some (digitsNat (dropUnderscores ds) : ℤ) else Option.none
  | '-' :: ds =>
      if isDigitRun ds then some (-(digitsNat (dropUnderscores ds) : ℤ)) else Option.none
  | ds =>
      if isDigitRun ds then some (digitsNat (dropUnderscores ds) : ℤ) else Option.none

/-- Clamp a non-negative parsed literal value to the double range: in the
exact-value idealization used throughout, a literal whose value reaches
2^1024 reads as infinity, as CPython's `float("1e999")` yields `inf`
rather than raising. -/
def clampToDouble (q : ℚ) : PyFloat :=
  if (2 : ℚ) ^ 1024 ≤ q then .posInf else .finite q

/-- Parse an unsigned float literal body: `inf`, `infinity` and `nan`
(case-insensitively), or a decimal mantissa with optional exponent; the
value is clamped to the double range. -/
def parseFloatBody (cs : List Char) : Option PyFloat :=
  let lower := cs.map pyToLower
  if lower = ['i', 'n', 'f'] ∨ lower = ['i', 'n', 'f', 'i', 'n', 'i', 't', 'y'] then
    some .posInf
  else if lower = ['n', 'a', 'n'] then some .nan
  else
    let mant := cs.takeWhile (fun c => c ≠ 'e' ∧ c ≠ 'E')
    let rest := cs.dropWhile (fun c => c ≠ 'e' ∧ c ≠ 'E')
    match rest with
    | [] => (parseMantissa cs).map clampToDouble
    | _ :: es =>
        match parseMantissa mant, parseExpPart es with
        | some m, some e => some (clampToDouble (m * (10 : ℚ) ^ e))
        | _, _ => Option.none

/-- Model of Python `float(str)` on its ASCII fragment (non-ASCII digit and
space transliteration is outside the model): surrounding whitespace is
ignored, then an optional sign is followed by a float literal body. -/
def parsePyFloat (s : String) : Option PyFloat :=
  match stripList s.data with
  | '+' :: rest => parseFloatBody rest
  | '-' :: rest => (parseFloatBody rest).map PyFloat.neg
  | rest => parseFloatBody rest

/-- Outcome of running a call that may let a Python exception propagate:
either a normal return value, or an uncaught exception recorded by name. -/
inductive PyOutcome (α : Type) where
  | ok (a : α)
  | raised (exn : String)
deriving DecidableEq

/-- Result of Python `float(x)` inside the validator's `try` block: a float,
an exception caught by the `except (TypeError, ValueError)` clause, or an
uncaught `OverflowError`. -/
inductive FloatConv where
  | ok (f : PyFloat)
  | caught
  | overflow
deriving DecidableEq

/-- Model of Python `float(x)` on a raw value: bools convert to 0.0/1.0;
ints convert exactly, but beyond the double range — in the exact-value
idealization used throughout, at absolute value 2^1024 — CPython raises
`OverflowError`; floats pass through; strings are parsed, a parse failure
being a caught `ValueError`; any other value is a caught `TypeError`. -/
def pyFloatConv : PyVal → FloatConv
  | .pyNone => .caught
  | .bool b => .ok (.finite (if b then 1 else 0))
  | .int n => if (2 : ℤ) ^ 1024 ≤ |n| then .overflow else .ok (.finite (n : ℚ))
  | .float f => .ok f
  | .str s =>
      match parsePyFloat s with
      | some f => .ok f
      | Option.none => .caught

/-! ### The program: configuration constants, validation, assessment, API -/

/-- Set of valid exudate levels (`VALID_EXUDATE_LEVELS` in the source). -/
def VALID_EXUDATE_LEVELS : List String := ["None", "Light", "Moderate", "Heavy"]

/-- Critical wound-area threshold (cm²). -/
def CRITICAL_WOUND_AREA_THRESHOLD : ℚ := 5

/-- Critical pain-level threshold (0-10 scale). -/
def CRITICAL_PAIN_LEVEL_THRESHOLD : ℚ := 7

/-- Good wound-area threshold (cm²). -/
def GOOD_WOUND_AREA_THRESHOLD : ℚ := 2

/-- Good pain-level threshold (0-10 scale). -/
def GOOD_PAIN_LEVEL_THRESHOLD : ℚ := 3

/-- The 5-tuple returned by `validate_inputs`:
`(is_valid, error_message, wound_area_float, pain_level_float,
exudate_level_normalized)`. -/
structure ValidateResult where
  isValid : Bool
  errorMsg : String
  area : PyFloat
  pain : PyFloat
  exudate : String
deriving DecidableEq

/-- Embedding of `validate_inputs` from the source: convert and check the
wound area, then the pain level, then normalize and check the exudate level,
stopping at the first failing check.  A caught conversion error becomes the
field's error tuple; an `OverflowError` escapes the function's
`except (TypeError, ValueError)` clauses and propagates to the caller. -/
def validate_inputs (wound_area pain_level exudate_level : PyVal) :
    PyOutcome ValidateResult :=
  match pyFloatConv wound_area with
  | .overflow => .raised "OverflowError"
  | .caught => .ok ⟨false, "woundArea 必須為數字", .finite 0, .finite 0, ""⟩
  | .ok wound_area_float =>
    if wound_area_float.isfinite = false then
      .ok ⟨false, "woundArea 必須為有限數值", .finite 0, .finite 0, ""⟩
    else if wound_area_float.lt (.finite 0) then
      .ok ⟨false, "woundArea 不可為負數", .finite 0, .finite 0, ""⟩
    else
      match pyFloatConv pain_level with
      | .overflow => .raised "OverflowError"
      | .caught => .ok ⟨false, "painLevel 必須為數字", .finite 0, .finite 0, ""⟩
      | .ok pain_level_float =>
        if pain_level_float.isfinite = false then
          .ok ⟨false, "painLevel 必須為有限數值", .finite 0, .finite 0, ""⟩
        else if pain_level_float.lt (.finite 0) || PyFloat.lt (.finite 10) pain_level_float then
          .ok ⟨false, "painLevel 超出範圍（0~10）", .finite 0, .finite 0, ""⟩
        else
          match exudate_level with
          | .str s =>
            let stripped := pyStrip s
            if stripped = "" then
              .ok ⟨false, "exudateLevel 不可為空", .finite 0, .finite 0, ""⟩
            else
              let normalized := pyCapitalize stripped
              if normalized ∈ VALID_EXUDATE_LEVELS then
                .ok ⟨true, "", wound_area_float, pain_level_float, normalized⟩
              else
                .ok ⟨false, "exudateLevel 不在允許值（None/Light/Moderate/Heavy）",
                  .finite 0, .finite 0, ""⟩
          | _ =>
            .ok ⟨false, "exudateLevel 必須為字串（None/Light/Moderate/Heavy）",
              .finite 0, .finite 0, ""⟩

/-- The dictionary returned by `assess`: status, reasons, advice. -/
structure AssessResult where
  status : String
  reasons : List String
  advice : String
deriving DecidableEq

/-- The list of Critical reasons collected by `assess`: each of the three
conditions is evaluated and appends its reason when it triggers. -/
def criticalReasons (wound_area pain_level : PyFloat) (exudate_level : String) :
    List String :=
  (if PyFloat.gt wound_area (.finite CRITICAL_WOUND_AREA_THRESHOLD) then
    ["傷口面積大於 5 cm²"] else []) ++
  (if PyFloat.gt pain_level (.finite CRITICAL_PAIN_LEVEL_THRESHOLD) then
    ["疼痛等級高於 7"] else []) ++
  (if exudate_level = "Heavy" then ["滲液量為 Heavy"] else [])

/-- Embedding of `assess` from the source: collect all Critical reasons; if
any, return Critical; else if all Good conditions hold, return Good; else
return Warning. -/
def assess (wound_area pain_level : PyFloat) (exudate_level : String) : AssessResult :=
  let reasons := criticalReasons wound_area pain_level exudate_level
  if reasons ≠ [] then
    ⟨"Critical", reasons, "傷口屬高風險狀態，建議儘速由專業醫療人員進行評估。"⟩
  else
    if PyFloat.lt wound_area (.finite GOOD_WOUND_AREA_THRESHOLD)
        && PyFloat.lt pain_level (.finite GOOD_PAIN_LEVEL_THRESHOLD)
        && (exudate_level == "None" || exudate_level == "Light") then
      ⟨"Good", ["指標皆在穩定範圍"], "目前傷口狀況穩定，建議持續基本清潔與定期觀察。"⟩
    else
      ⟨"Warning", ["介於 Good 與 Critical 之間，需持續追蹤"],
        "傷口狀況需注意，建議增加觀察頻率並留意疼痛與滲液變化。"⟩

/-- The tagged union returned by `assess_wound_api`: either
`{success: True, data: ...}` or `{success: False, error: ...}`. -/
inductive ApiResponse where
  | success (data : AssessResult)
  | failure (error : String)
deriving DecidableEq

/-- Embedding of `assess_wound_api` from the source: validate, return the
error response on failure, otherwise assess the validated values; an
exception raised by validation propagates, since `assess_wound_api` installs
no handler. -/
def assess_wound_api (wound_area pain_level exudate_level : PyVal) :
    PyOutcome ApiResponse :=
  match validate_inputs wound_area pain_level exudate_level with
  | .raised exn => .raised exn
  | .ok v =>
      if v.isValid = false then .ok (.failure v.errorMsg)
      else .ok (.success (assess v.area v.pain v.exudate))

/-- Summary predicate: the wound-area field converts and passes its checks. -/
def areaChecksPass (v : PyVal) : Bool :=
  match pyFloatConv v with
  | .ok f => f.isfinite && !(f.lt (.finite 0))
  | _ => false

/-- Summary predicate: the pain-level field converts and passes its checks. -/
def painChecksPass (v : PyVal) : Bool :=
  match pyFloatConv v with
  | .ok f => f.isfinite && !(f.lt (.finite 0) || PyFloat.lt (.finite 10) f)
  | _ => false

/-- Summary predicate: the exudate field passes all of its checks. -/
def exudateChecksPass (v : PyVal) : Bool :=
  match v with
  | .str s => pyStrip s ≠ "" && pyCapitalize (pyStrip s) ∈ VALID_EXUDATE_LEVELS
  | _ => false

/-! ### Characterization lemmas for the validator -/

theorem pyFloatConv_int_of_lt {n : ℤ} (h1 : -(2 ^ 1024) < n) (h2 : n < 2 ^ 1024) :
    pyFloatConv (.int n) = .ok (.finite (n : ℚ)) := by
  simp only [pyFloatConv]
  rw [if_neg (not_le.mpr (abs_lt.mpr ⟨h1, h2⟩))]

theorem pyFloatConv_int_overflow {n : ℤ} (h : 2 ^ 1024 ≤ n) :
    pyFloatConv (.int n) = .overflow := by
  simp only [pyFloatConv]
  rw [if_pos (le_trans h (le_abs_self n))]

theorem capList_eq_nil_iff (m : List Char) : capList m = [] ↔ m = [] := by
  cases m <;> simp [capList]

theorem pyCapitalize_eq_empty_iff (u : String) : pyCapitalize u = "" ↔ u = "" := by
  constructor
  · intro h
    have h2 := congrArg String.data h
    simp only [pyCapitalize] at h2
    have h3 : capList u.data = [] := h2
    rcases u with ⟨l⟩
    have : l = [] := (capList_eq_nil_iff l).mp h3
    rw [this]
  · intro h
    rw [h]
    rfl

theorem areaChecksPass_float (x : PyFloat) :
    areaChecksPass (.float x) = true ↔ ∃ q : ℚ, x = .finite q ∧ 0 ≤ q := by
  cases x <;> simp [areaChecksPass, pyFloatConv, PyFloat.isfinite, PyFloat.lt, not_lt]

theorem painChecksPass_float (x : PyFloat) :
    painChecksPass (.float x) = true ↔ ∃ q : ℚ, x = .finite q ∧ 0 ≤ q ∧ q ≤ 10 := by
  cases x <;>
    simp [painChecksPass, pyFloatConv, PyFloat.isfinite, PyFloat.lt, not_lt, not_or]

theorem exudateChecksPass_str (s : String) :
    exudateChecksPass (.str s) = true ↔ canonicalizeExudate s ∈ VALID_EXUDATE_LEVELS := by
  simp only [exudateChecksPass, canonicalizeExudate, Bool.and_eq_true, decide_eq_true_eq,
    ne_eq]
  constructor
  · rintro ⟨_, h2⟩
    exact h2
  · intro h
    refine ⟨?_, h⟩
    intro hs
    rw [hs] at h
    have : pyCapitalize "" = "" := rfl
    rw [this] at h
    simp [VALID_EXUDATE_LEVELS] at h

theorem validate_area_overflow {a : PyVal} (p e : PyVal)
    (ha : pyFloatConv a = .overflow) :
    validate_inputs a p e = .raised "OverflowError" := by
  unfold validate_inputs
  rw [ha]

theorem validate_area_caught {a : PyVal} (p e : PyVal)
    (ha : pyFloatConv a = .caught) :
    validate_inputs a p e =
      .ok ⟨false, "woundArea 必須為數字", .finite 0, .finite 0, ""⟩ := by
  unfold validate_inputs
  rw [ha]

theorem validate_area_ok {a : PyVal} {f : PyFloat} (p e : PyVal)
    (ha : pyFloatConv a = .ok f) :
    validate_inputs a p e = validate_inputs (.float f) p e := by
  unfold validate_inputs
  rw [ha]
  rfl

theorem validate_pain_ok {p : PyVal} {g : PyFloat} (f : PyFloat) (e : PyVal)
    (hp : pyFloatConv p = .ok g) :
    validate_inputs (.float f) p e = validate_inputs (.float f) (.float g) e := by
  unfold validate_inputs
  rw [hp]
  rfl

theorem validate_area_notFinite {f : PyFloat} (p e : PyVal) (h : f.isfinite = false) :
    validate_inputs (.float f) p e =
      .ok ⟨false, "woundArea 必須為有限數值", .finite 0, .finite 0, ""⟩ := by
  simp [validate_inputs, pyFloatConv, h]

theorem validate_area_neg {f : PyFloat} (p e : PyVal) (h1 : f.isfinite = true)
    (h2 : f.lt (.finite 0) = true) :
    validate_inputs (.float f) p e =
      .ok ⟨false, "woundArea 不可為負數", .finite 0, .finite 0, ""⟩ := by
  simp [validate_inputs, pyFloatConv, h1, h2]

theorem validate_pain_overflow {p : PyVal} {f : PyFloat} (e : PyVal)
    (h1 : f.isfinite = true) (h2 : f.lt (.finite 0) = false)
    (hp : pyFloatConv p = .overflow) :
    validate_inputs (.float f) p e = .raised "OverflowError" := by
  unfold validate_inputs
  rw [hp]
  simp [pyFloatConv, h1, h2]

theorem validate_pain_caught {p : PyVal} {f : PyFloat} (e : PyVal)
    (h1 : f.isfinite = true) (h2 : f.lt (.finite 0) = false)
    (hp : pyFloatConv p = .caught) :
    validate_inputs (.float f) p e =
      .ok ⟨false, "painLevel 必須為數字", .finite 0, .finite 0, ""⟩ := by
  unfold validate_inputs
  rw [hp]
  simp [pyFloatConv, h1, h2]

theorem validate_pain_notFinite {f g : PyFloat} (e : PyVal)
    (h1 : f.isfinite = true) (h2 : f.lt (.finite 0) = false)
    (h3 : g.isfinite = false) :
    validate_inputs (.float f) (.float g) e =
      .ok ⟨false, "painLevel 必須為有限數值", .finite 0, .finite 0, ""⟩ := by
  simp [validate_inputs, pyFloatConv, h1, h2, h3]

theorem validate_pain_range {f g : PyFloat} (e : PyVal)
    (h1 : f.isfinite = true) (h2 : f.lt (.finite 0) = false)
    (h3 : g.isfinite = true)
    (h4 : (g.lt (.finite 0) || PyFloat.lt (.finite 10) g) = true) :
    validate_inputs (.float f) (.float g) e =
      .ok ⟨false, "painLevel 超出範圍（0~10）", .finite 0, .finite 0, ""⟩ := by
  simp [validate_inputs, pyFloatConv, h1, h2, h3, h4]

theorem validate_exu_nonstr {f g : PyFloat} {e : PyVal}
    (h1 : f.isfinite = true) (h2 : f.lt (.finite 0) = false)
    (h3 : g.isfinite = true)
    (h4 : (g.lt (.finite 0) || PyFloat.lt (.finite 10) g) = false)
    (he : e.isStr = false) :
    validate_inputs (.float f) (.float g) e =
      .ok ⟨false, "exudateLevel 必須為字串（None/Light/Moderate/Heavy）",
        .finite 0, .finite 0, ""⟩ := by
  cases e <;> simp_all [validate_inputs, pyFloatConv, PyVal.isStr]

theorem validate_exu_empty {f g : PyFloat} {s : String}
    (h1 : f.isfinite = true) (h2 : f.lt (.finite 0) = false)
    (h3 : g.isfinite = true)
    (h4 : (g.lt (.finite 0) || PyFloat.lt (.finite 10) g) = false)
    (hs : pyStrip s = "") :
    validate_inputs (.float f) (.float g) (.str s) =
      .ok ⟨false, "exudateLevel 不可為空", .finite 0, .finite 0, ""⟩ := by
  simp [validate_inputs, pyFloatConv, h1, h2, h3, h4, hs]

theorem validate_exu_enum {f g : PyFloat} {s : String}
    (h1 : f.isfinite = true) (h2 : f.lt (.finite 0) = false)
    (h3 : g.isfinite = true)
    (h4 : (g.lt (.finite 0) || PyFloat.lt (.finite 10) g) = false)
    (hs : pyStrip s ≠ "")
    (hm : pyCapitalize (pyStrip s) ∉ VALID_EXUDATE_LEVELS) :
    validate_inputs (.float f) (.float g) (.str s) =
      .ok ⟨false, "exudateLevel 不在允許值（None/Light/Moderate/Heavy）",
        .finite 0, .finite 0, ""⟩ := by
  simp [validate_inputs, pyFloatConv, h1, h2, h3, h4, hs, hm]

theorem validate_exu_ok {f g : PyFloat} {s : String}
    (h1 : f.isfinite = true) (h2 : f.lt (.finite 0) = false)
    (h3 : g.isfinite = true)
    (h4 : (g.lt (.finite 0) || PyFloat.lt (.finite 10) g) = false)
    (hm : pyCapitalize (pyStrip s) ∈ VALID_EXUDATE_LEVELS) :
    validate_inputs (.float f) (.float g) (.str s) =
      .ok ⟨true, "", f, g, pyCapitalize (pyStrip s)⟩ := by
  have hs : pyStrip s ≠ "" := by
    intro h
    rw [h] at hm
    have : pyCapitalize "" = "" := rfl
    rw [this] at hm
    simp [VALID_EXUDATE_LEVELS] at hm
  simp [validate_inputs, pyFloatConv, h1, h2, h3, h4, hs, hm]

theorem areaChecksPass_spec {a : PyVal} (h : areaChecksPass a = true) :
    ∃ f, pyFloatConv a = .ok f ∧ f.isfinite = true ∧ f.lt (.finite 0) = false := by
  unfold areaChecksPass at h
  cases ha : pyFloatConv a with
  | ok f =>
      rw [ha] at h
      simp only [Bool.and_eq_true, Bool.not_eq_true'] at h
      exact ⟨f, rfl, h.1, h.2⟩
  | caught =>
      rw [ha] at h
      exact absurd h (by simp)
  | overflow =>
      rw [ha] at h
      exact absurd h (by simp)

theorem painChecksPass_spec {p : PyVal} (h : painChecksPass p = true) :
    ∃ g, pyFloatConv p = .ok g ∧ g.isfinite = true ∧
      (g.lt (.finite 0) || PyFloat.lt (.finite 10) g) = false := by
  unfold painChecksPass at h
  cases hp : pyFloatConv p with
  | ok g =>
      rw [hp] at h
      simp only [Bool.and_eq_true, Bool.not_eq_true'] at h
      exact ⟨g, rfl, h.1, h.2⟩
  | caught =>
      rw [hp] at h
      exact absurd h (by simp)
  | overflow =>
      rw [hp] at h
      exact absurd h (by simp)

theorem exudateChecksPass_spec {e : PyVal} (h : exudateChecksPass e = true) :
    ∃ s, e = .str s ∧ pyStrip s ≠ "" ∧
      pyCapitalize (pyStrip s) ∈ VALID_EXUDATE_LEVELS := by
  cases e <;> simp_all [exudateChecksPass]

theorem validate_ok_isValid_iff (a p e : PyVal) :
    (∃ r, validate_inputs a p e = .ok r ∧ r.isValid = true) ↔
      areaChecksPass a = true ∧ painChecksPass p = true ∧ exudateChecksPass e = true := by
  cases ha : pyFloatConv a with
  | overflow =>
      rw [validate_area_overflow p e ha]
      simp [areaChecksPass, ha]
  | caught =>
      rw [validate_area_caught p e ha]
      simp [areaChecksPass, ha]
  | ok f =>
      rw [validate_area_ok p e ha]
      cases hf1 : f.isfinite with
      | false =>
          rw [validate_area_notFinite p e hf1]
          simp [areaChecksPass, ha, hf1]
      | true =>
          cases hf2 : f.lt (.finite 0) with
          | true =>
              rw [validate_area_neg p e hf1 hf2]
              simp [areaChecksPass, ha, hf1, hf2]
          | false =>
              have harea : areaChecksPass a = true := by
                simp [areaChecksPass, ha, hf1, hf2]
              cases hp : pyFloatConv p with
              | overflow =>
                  rw [validate_pain_overflow e hf1 hf2 hp]
                  simp [painChecksPass, hp, harea]
              | caught =>
                  rw [validate_pain_caught e hf1 hf2 hp]
                  simp [painChecksPass, hp, harea]
              | ok g =>
                  rw [validate_pain_ok f e hp]
                  cases hg1 : g.isfinite with
                  | false =>
                      rw [validate_pain_notFinite e hf1 hf2 hg1]
                      simp [painChecksPass, hp, hg1]
                  | true =>
                      cases hg4 : (g.lt (.finite 0) || PyFloat.lt (.finite 10) g) with
                      | true =>
                          rw [validate_pain_range e hf1 hf2 hg1 hg4]
                          have hpain : painChecksPass p = false := by
                            unfold painChecksPass
                            rw [hp]
                            simp [hg4]
                          simp [hpain]
                      | false =>
                          have hpain : painChecksPass p = true := by
                            simp only [painChecksPass, hp, hg1, hg4]
                            rfl
                          rcases e with _ | b | n | x | s
                          · rw [@validate_exu_nonstr f g PyVal.pyNone hf1 hf2 hg1 hg4 rfl]
                            simp [exudateChecksPass, harea, hpain]
                          · rw [@validate_exu_nonstr f g (PyVal.bool b) hf1 hf2 hg1 hg4 rfl]
                            simp [exudateChecksPass, harea, hpain]
                          · rw [@validate_exu_nonstr f g (PyVal.int n) hf1 hf2 hg1 hg4 rfl]
                            simp [exudateChecksPass, harea, hpain]
                          · rw [@validate_exu_nonstr f g (PyVal.float x) hf1 hf2 hg1 hg4 rfl]
                            simp [exudateChecksPass, harea, hpain]
                          · by_cases hs : pyStrip s = ""
                            · rw [validate_exu_empty hf1 hf2 hg1 hg4 hs]
                              simp [exudateChecksPass, hs, harea, hpain]
                            · by_cases hm : pyCapitalize (pyStrip s) ∈ VALID_EXUDATE_LEVELS
                              · rw [validate_exu_ok hf1 hf2 hg1 hg4 hm]
                                simp [exudateChecksPass, hs, hm, harea, hpain]
                              · rw [validate_exu_enum hf1 hf2 hg1 hg4 hs hm]
                                simp [exudateChecksPass, hs, hm, harea, hpain]

theorem validate_success_shape {a p e : PyVal}
    (ha : areaChecksPass a = true) (hp : painChecksPass p = true)
    (he : exudateChecksPass e = true) :
    ∃ f g s, pyFloatConv a = .ok f ∧ pyFloatConv p = .ok g ∧ e = .str s ∧
      validate_inputs a p e = .ok ⟨true, "", f, g, pyCapitalize (pyStrip s)⟩ := by
  obtain ⟨f, haf, hf1, hf2⟩ := areaChecksPass_spec ha
  obtain ⟨g, hpg, hg1, hg4⟩ := painChecksPass_spec hp
  obtain ⟨s, hes, hs, hm⟩ := exudateChecksPass_spec he
  refine ⟨f, g, s, haf, hpg, hes, ?_⟩
  rw [hes, validate_area_ok _ _ haf, validate_pain_ok _ _ hpg,
    validate_exu_ok hf1 hf2 hg1 hg4 hm]

theorem validate_total (a p e : PyVal) :
    ((pyFloatConv a = .overflow ∨
        (areaChecksPass a = true ∧ pyFloatConv p = .overflow)) ∧
      validate_inputs a p e = .raised "OverflowError") ∨
    ∃ r, validate_inputs a p e = .ok r := by
  cases ha : pyFloatConv a with
  | overflow => exact Or.inl ⟨Or.inl rfl, validate_area_overflow p e ha⟩
  | caught => exact Or.inr ⟨_, validate_area_caught p e ha⟩
  | ok f =>
      rw [validate_area_ok p e ha]
      cases hf1 : f.isfinite with
      | false => exact Or.inr ⟨_, validate_area_notFinite p e hf1⟩
      | true =>
          cases hf2 : f.lt (.finite 0) with
          | true => exact Or.inr ⟨_, validate_area_neg p e hf1 hf2⟩
          | false =>
              have harea : areaChecksPass a = true := by
                simp [areaChecksPass, ha, hf1, hf2]
              cases hp : pyFloatConv p with
              | overflow =>
                  exact Or.inl ⟨Or.inr ⟨harea, rfl⟩, validate_pain_overflow e hf1 hf2 hp⟩
              | caught => exact Or.inr ⟨_, validate_pain_caught e hf1 hf2 hp⟩
              | ok g =>
                  rw [validate_pain_ok f e hp]
                  cases hg1 : g.isfinite with
                  | false => exact Or.inr ⟨_, validate_pain_notFinite e hf1 hf2 hg1⟩
                  | true =>
                      cases hg4 : (g.lt (.finite 0) || PyFloat.lt (.finite 10) g) with
                      | true => exact Or.inr ⟨_, validate_pain_range e hf1 hf2 hg1 hg4⟩
                      | false =>
                          rcases e with _ | b | n | x | s
                          · exact Or.inr
                              ⟨_, @validate_exu_nonstr f g PyVal.pyNone hf1 hf2 hg1 hg4 rfl⟩
                          · exact Or.inr
                              ⟨_, @validate_exu_nonstr f g (PyVal.bool b) hf1 hf2 hg1 hg4 rfl⟩
                          · exact Or.inr
                              ⟨_, @validate_exu_nonstr f g (PyVal.int n) hf1 hf2 hg1 hg4 rfl⟩
                          · exact Or.inr
                              ⟨_, @validate_exu_nonstr f g (PyVal.float x) hf1 hf2 hg1 hg4 rfl⟩
                          · by_cases hs : pyStrip s = ""
                            · exact Or.inr ⟨_, validate_exu_empty hf1 hf2 hg1 hg4 hs⟩
                            · by_cases hm : pyCapitalize (pyStrip s) ∈ VALID_EXUDATE_LEVELS
                              · exact Or.inr ⟨_, validate_exu_ok hf1 hf2 hg1 hg4 hm⟩
                              · exact Or.inr ⟨_, validate_exu_enum hf1 hf2 hg1 hg4 hs hm⟩

theorem validate_not_raised {a p e : PyVal}
    (ha : pyFloatConv a ≠ .overflow) (hp : pyFloatConv p ≠ .overflow) :
    ∃ r, validate_inputs a p e = .ok r := by
  rcases validate_total a p e with ⟨hw, -⟩ | h
  · rcases hw with h1 | ⟨-, h2⟩
    · exact absurd h1 ha
    · exact absurd h2 hp
  · exact h

theorem validate_exudate_congr (a p : PyVal) {s t : String}
    (hco : canonicalizeExudate s = canonicalizeExudate t) :
    validate_inputs a p (.str s) = validate_inputs a p (.str t) := by
  have hcap : pyCapitalize (pyStrip s) = pyCapitalize (pyStrip t) := hco
  have hempty : (pyStrip s = "") ↔ (pyStrip t = "") := by
    constructor
    · intro h
      apply (pyCapitalize_eq_empty_iff _).mp
      rw [← hcap, h]
      rfl
    · intro h
      apply (pyCapitalize_eq_empty_iff _).mp
      rw [hcap, h]
      rfl
  cases ha : pyFloatConv a with
  | overflow => rw [validate_area_overflow p _ ha, validate_area_overflow p _ ha]
  | caught => rw [validate_area_caught p _ ha, validate_area_caught p _ ha]
  | ok f =>
      rw [validate_area_ok p _ ha, validate_area_ok p _ ha]
      cases hf1 : f.isfinite with
      | false => rw [validate_area_notFinite _ _ hf1, validate_area_notFinite _ _ hf1]
      | true =>
          cases hf2 : f.lt (.finite 0) with
          | true => rw [validate_area_neg _ _ hf1 hf2, validate_area_neg _ _ hf1 hf2]
          | false =>
              cases hp : pyFloatConv p with
              | overflow =>
                  rw [validate_pain_overflow _ hf1 hf2 hp,
                    validate_pain_overflow _ hf1 hf2 hp]
              | caught =>
                  rw [validate_pain_caught _ hf1 hf2 hp,
                    validate_pain_caught _ hf1 hf2 hp]
              | ok g =>
                  rw [validate_pain_ok f _ hp, validate_pain_ok f _ hp]
                  cases hg1 : g.isfinite with
                  | false =>
                      rw [validate_pain_notFinite _ hf1 hf2 hg1,
                        validate_pain_notFinite _ hf1 hf2 hg1]
                  | true =>
                      cases hg4 : (g.lt (.finite 0) || PyFloat.lt (.finite 10) g) with
                      | true =>
                          rw [validate_pain_range _ hf1 hf2 hg1 hg4,
                            validate_pain_range _ hf1 hf2 hg1 hg4]
                      | false =>
                          by_cases hs : pyStrip s = ""
                          · rw [validate_exu_empty hf1 hf2 hg1 hg4 hs,
                              validate_exu_empty hf1 hf2 hg1 hg4 (hempty.mp hs)]
                          · have ht : pyStrip t ≠ "" := fun h => hs (hempty.mpr h)
                            by_cases hm : pyCapitalize (pyStrip s) ∈ VALID_EXUDATE_LEVELS
                            · rw [validate_exu_ok hf1 hf2 hg1 hg4 hm,
                                validate_exu_ok hf1 hf2 hg1 hg4 (by rwa [← hcap]), hcap]
                            · rw [validate_exu_enum hf1 hf2 hg1 hg4 hs hm,
                                validate_exu_enum hf1 hf2 hg1 hg4 ht (by rwa [← hcap])]

/-! ### Helper lemmas for the classifier -/

theorem assess_critical {a p : PyFloat} {e : String}
    (h : criticalReasons a p e ≠ []) :
    assess a p e = ⟨"Critical", criticalReasons a p e,
      "傷口屬高風險狀態，建議儘速由專業醫療人員進行評估。"⟩ := by
  simp [assess, h]

theorem criticalReasons_finite (qa qp : ℚ) (e : String) :
    criticalReasons (.finite qa) (.finite qp) e =
      (if 5 < qa then ["傷口面積大於 5 cm²"] else []) ++
      (if 7 < qp then ["疼痛等級高於 7"] else []) ++
      (if e = "Heavy" then ["滲液量為 Heavy"] else []) := by
  simp [criticalReasons, PyFloat.gt, PyFloat.lt, CRITICAL_WOUND_AREA_THRESHOLD,
    CRITICAL_PAIN_LEVEL_THRESHOLD]

theorem criticalReasons_nil_iff (qa qp : ℚ) (e : String) :
    criticalReasons (.finite qa) (.finite qp) e = [] ↔
      qa ≤ 5 ∧ qp ≤ 7 ∧ e ≠ "Heavy" := by
  rw [criticalReasons_finite]
  simp [List.append_eq_nil, ite_eq_right_iff, not_lt]

theorem assess_good {qa qp : ℚ} {e : String}
    (hnil : criticalReasons (.finite qa) (.finite qp) e = [])
    (h1 : qa < 2) (h2 : qp < 3) (h3 : e = "None" ∨ e = "Light") :
    assess (.finite qa) (.finite qp) e =
      ⟨"Good", ["指標皆在穩定範圍"], "目前傷口狀況穩定，建議持續基本清潔與定期觀察。"⟩ := by
  have hg : (PyFloat.lt (.finite qa) (.finite GOOD_WOUND_AREA_THRESHOLD)
      && PyFloat.lt (.finite qp) (.finite GOOD_PAIN_LEVEL_THRESHOLD)
      && (e == "None" || e == "Light")) = true := by
    simp [PyFloat.lt, GOOD_WOUND_AREA_THRESHOLD, GOOD_PAIN_LEVEL_THRESHOLD, h1, h2]
    rcases h3 with h | h <;> simp [h]
  simp [assess, hnil, hg]

theorem assess_warning {qa qp : ℚ} {e : String}
    (hnil : criticalReasons (.finite qa) (.finite qp) e = [])
    (h : ¬(qa < 2 ∧ qp < 3 ∧ (e = "None" ∨ e = "Light"))) :
    assess (.finite qa) (.finite qp) e =
      ⟨"Warning", ["介於 Good 與 Critical 之間，需持續追蹤"],
        "傷口狀況需注意，建議增加觀察頻率並留意疼痛與滲液變化。"⟩ := by
  have hg : (PyFloat.lt (.finite qa) (.finite GOOD_WOUND_AREA_THRESHOLD)
      && PyFloat.lt (.finite qp) (.finite GOOD_PAIN_LEVEL_THRESHOLD)
      && (e == "None" || e == "Light")) = false := by
    by_contra hc
    rw [Bool.not_eq_false] at hc
    apply h
    simp only [PyFloat.lt, GOOD_WOUND_AREA_THRESHOLD, GOOD_PAIN_LEVEL_THRESHOLD,
      Bool.and_eq_true, Bool.or_eq_true, beq_iff_eq, decide_eq_true_eq] at hc
    exact ⟨hc.1.1, hc.1.2, hc.2⟩
  simp [assess, hnil, hg]

theorem assess_cases (qa qp : ℚ) (e : String) :
    (criticalReasons (.finite qa) (.finite qp) e ≠ [] ∧
      assess (.finite qa) (.finite qp) e =
        ⟨"Critical", criticalReasons (.finite qa) (.finite qp) e,
          "傷口屬高風險狀態，建議儘速由專業醫療人員進行評估。"⟩) ∨
    (criticalReasons (.finite qa) (.finite qp) e = [] ∧
      (assess (.finite qa) (.finite qp) e =
        ⟨"Good", ["指標皆在穩定範圍"], "目前傷口狀況穩定，建議持續基本清潔與定期觀察。"⟩ ∨
       assess (.finite qa) (.finite qp) e =
        ⟨"Warning", ["介於 Good 與 Critical 之間，需持續追蹤"],
          "傷口狀況需注意，建議增加觀察頻率並留意疼痛與滲液變化。"⟩)) := by
  by_cases hnil : criticalReasons (.finite qa) (.finite qp) e = []
  · right
    refine ⟨hnil, ?_⟩
    by_cases hgood : qa < 2 ∧ qp < 3 ∧ (e = "None" ∨ e = "Light")
    · exact Or.inl (assess_good hnil hgood.1 hgood.2.1 hgood.2.2)
    · exact Or.inr (assess_warning hnil hgood)
  · left
    exact ⟨hnil, assess_critical hnil⟩

theorem mem_area_reason_iff (qa qp : ℚ) (e : String) :
    "傷口面積大於 5 cm²" ∈ (assess (.finite qa) (.finite qp) e).reasons ↔ 5 < qa := by
  rcases assess_cases qa qp e with ⟨hnil, hc⟩ | ⟨hnil, hc | hc⟩ <;> rw [hc]
  · rw [criticalReasons_finite]
    by_cases h1 : 5 < qa <;> by_cases h2 : 7 < qp <;> by_cases h3 : e = "Heavy" <;>
      simp [h1, h2, h3]
  · have := (criticalReasons_nil_iff qa qp e).mp hnil
    simp [not_lt.mpr this.1]
  · have := (criticalReasons_nil_iff qa qp e).mp hnil
    simp [not_lt.mpr this.1]

theorem mem_pain_reason_iff (qa qp : ℚ) (e : String) :
    "疼痛等級高於 7" ∈ (assess (.finite qa) (.finite qp) e).reasons ↔ 7 < qp := by
  rcases assess_cases qa qp e with ⟨hnil, hc⟩ | ⟨hnil, hc | hc⟩ <;> rw [hc]
  · rw [criticalReasons_finite]
    by_cases h1 : 5 < qa <;> by_cases h2 : 7 < qp <;> by_cases h3 : e = "Heavy" <;>
      simp [h1, h2, h3]
  · have := (criticalReasons_nil_iff qa qp e).mp hnil
    simp [not_lt.mpr this.2.1]
  · have := (criticalReasons_nil_iff qa qp e).mp hnil
    simp [not_lt.mpr this.2.1]

theorem mem_heavy_reason_iff (qa qp : ℚ) (e : String) :
    "滲液量為 Heavy" ∈ (assess (.finite qa) (.finite qp) e).reasons ↔ e = "Heavy" := by
  rcases assess_cases qa qp e with ⟨hnil, hc⟩ | ⟨hnil, hc | hc⟩ <;> rw [hc]
  · rw [criticalReasons_finite]
    by_cases h1 : 5 < qa <;> by_cases h2 : 7 < qp <;> by_cases h3 : e = "Heavy" <;>
      simp [h1, h2, h3]
  · have := (criticalReasons_nil_iff qa qp e).mp hnil
    simp [this.2.2]
  · have := (criticalReasons_nil_iff qa qp e).mp hnil
    simp [this.2.2]

theorem status_critical_iff (qa qp : ℚ) (e : String) :
    (assess (.finite qa) (.finite qp) e).status = "Critical" ↔
      criticalReasons (.finite qa) (.finite qp) e ≠ [] := by
  rcases assess_cases qa qp e with ⟨hnil, hc⟩ | ⟨hnil, hc | hc⟩ <;> rw [hc] <;>
    simp [hnil]

/-- C2: on validated inputs the classifier evaluates all three Critical
conditions without short-circuiting — each condition's reason is in the
returned list exactly when that condition triggers — and returns Critical
with the full collected list whenever it is non-empty; in particular
area=0, pain=10, exudate=Heavy gives Critical with exactly the two reasons
for pain and Heavy exudate. -/
theorem claim_critical_collects_all_reasons :
    (∀ (qa qp : ℚ) (e : String),
      ("傷口面積大於 5 cm²" ∈ (assess (.finite qa) (.finite qp) e).reasons ↔ 5 < qa) ∧
      ("疼痛等級高於 7" ∈ (assess (.finite qa) (.finite qp) e).reasons ↔ 7 < qp) ∧
      ("滲液量為 Heavy" ∈ (assess (.finite qa) (.finite qp) e).reasons ↔ e = "Heavy") ∧
      ((assess (.finite qa) (.finite qp) e).status = "Critical" ↔
        criticalReasons (.finite qa) (.finite qp) e ≠ []) ∧
      (criticalReasons (.finite qa) (.finite qp) e ≠ [] →
        assess (.finite qa) (.finite qp) e =
          ⟨"Critical", criticalReasons (.finite qa) (.finite qp) e,
            "傷口屬高風險狀態，建議儘速由專業醫療人員進行評估。"⟩)) ∧
    assess (.finite 0) (.finite 10) "Heavy" =
      ⟨"Critical", ["疼痛等級高於 7", "滲液量為 Heavy"],
        "傷口屬高風險狀態，建議儘速由專業醫療人員進行評估。"⟩ := by
  constructor
  · intro qa qp e
    exact ⟨mem_area_reason_iff qa qp e, mem_pain_reason_iff qa qp e,
      mem_heavy_reason_iff qa qp e, status_critical_iff qa qp e,
      fun h => assess_critical h⟩
  · decide

/-- Witness for C2 at a concrete multi-trigger input. -/
theorem claim_critical_collects_all_reasons_witness :
    assess (.finite 6) (.finite 0) "None" =
      ⟨"Critical", criticalReasons (.finite 6) (.finite 0) "None",
        "傷口屬高風險狀態，建議儘速由專業醫療人員進行評估。"⟩ :=
  (claim_critical_collects_all_reasons.1 6 0 "None").2.2.2.2 (by decide)

/-- C3: when no Critical condition triggers, the classifier returns Good with
its single fixed reason exactly when area < 2, pain < 3 and the exudate is
None or Light, and otherwise returns Warning with its single fixed reason;
in particular area=0, pain=0, exudate="None" gives Good. -/
theorem claim_good_warning_classification :
    (∀ (qa qp : ℚ) (e : String),
      criticalReasons (.finite qa) (.finite qp) e = [] →
        ((qa < 2 ∧ qp < 3 ∧ (e = "None" ∨ e = "Light") →
          assess (.finite qa) (.finite qp) e =
            ⟨"Good", ["指標皆在穩定範圍"],
              "目前傷口狀況穩定，建議持續基本清潔與定期觀察。"⟩) ∧
         (¬(qa < 2 ∧ qp < 3 ∧ (e = "None" ∨ e = "Light")) →
          assess (.finite qa) (.finite qp) e =
            ⟨"Warning", ["介於 Good 與 Critical 之間，需持續追蹤"],
              "傷口狀況需注意，建議增加觀察頻率並留意疼痛與滲液變化。"⟩))) ∧
    assess (.finite 0) (.finite 0) "None" =
      ⟨"Good", ["指標皆在穩定範圍"], "目前傷口狀況穩定，建議持續基本清潔與定期觀察。"⟩ := by
  constructor
  · intro qa qp e hnil
    exact ⟨fun h => assess_good hnil h.1 h.2.1 h.2.2, fun h => assess_warning hnil h⟩
  · decide

/-- Witness for C3 at concrete Good and Warning inputs. -/
theorem claim_good_warning_classification_witness :
    assess (.finite 1) (.finite 1) "Light" =
      ⟨"Good", ["指標皆在穩定範圍"], "目前傷口狀況穩定，建議持續基本清潔與定期觀察。"⟩ ∧
    assess (.finite 3) (.finite 1) "Light" =
      ⟨"Warning", ["介於 Good 與 Critical 之間，需持續追蹤"],
        "傷口狀況需注意，建議增加觀察頻率並留意疼痛與滲液變化。"⟩ :=
  ⟨((claim_good_warning_classification.1 1 1 "Light") (by decide)).1
      (by constructor <;> [decide; constructor <;> [decide; exact Or.inr rfl]]),
    ((claim_good_warning_classification.1 3 1 "Light") (by decide)).2 (by decide)⟩

/-- C4: all classification thresholds are strict: area exactly 5 (with pain
at most 7 and exudate not Heavy) gives Warning while area 5.01 gives
Critical; pain exactly 7 never contributes a pain reason while pain 7.01
always gives Critical with the pain reason; pain exactly 3 (with area < 2
and exudate None or Light) gives Warning while pain 2.99 gives Good. -/
theorem claim_strict_thresholds :
    (∀ (qp : ℚ) (e : String), qp ≤ 7 → e ≠ "Heavy" →
      assess (.finite 5) (.finite qp) e =
        ⟨"Warning", ["介於 Good 與 Critical 之間，需持續追蹤"],
          "傷口狀況需注意，建議增加觀察頻率並留意疼痛與滲液變化。"⟩) ∧
    (∀ (qp : ℚ) (e : String), qp ≤ 7 → e ≠ "Heavy" →
      assess (.finite 5.01) (.finite qp) e =
        ⟨"Critical", ["傷口面積大於 5 cm²"],
          "傷口屬高風險狀態，建議儘速由專業醫療人員進行評估。"⟩) ∧
    (∀ (qa : ℚ) (e : String),
      "疼痛等級高於 7" ∉ (assess (.finite qa) (.finite 7) e).reasons) ∧
    (∀ (qa : ℚ) (e : String),
      (assess (.finite qa) (.finite 7.01) e).status = "Critical" ∧
      "疼痛等級高於 7" ∈ (assess (.finite qa) (.finite 7.01) e).reasons) ∧
    (∀ (qa : ℚ) (e : String), qa < 2 → (e = "None" ∨ e = "Light") →
      assess (.finite qa) (.finite 3) e =
        ⟨"Warning", ["介於 Good 與 Critical 之間，需持續追蹤"],
          "傷口狀況需注意，建議增加觀察頻率並留意疼痛與滲液變化。"⟩ ∧
      assess (.finite qa) (.finite 2.99) e =
        ⟨"Good", ["指標皆在穩定範圍"], "目前傷口狀況穩定，建議持續基本清潔與定期觀察。"⟩) := by
  refine ⟨?_, ?_, ?_, ?_, ?_⟩
  · intro qp e hqp he
    have hnil : criticalReasons (.finite 5) (.finite qp) e = [] :=
      (criticalReasons_nil_iff 5 qp e).mpr ⟨le_refl 5, hqp, he⟩
    exact assess_warning hnil (by rintro ⟨h, -, -⟩; norm_num at h)
  · intro qp e hqp he
    have hr : criticalReasons (.finite 5.01) (.finite qp) e = ["傷口面積大於 5 cm²"] := by
      rw [criticalReasons_finite, if_pos (by norm_num), if_neg (not_lt.mpr hqp),
        if_neg he]
      rfl
    have h := assess_critical (e := e) (by rw [hr]; simp)
    rw [hr] at h
    exact h
  · intro qa e
    rw [mem_pain_reason_iff]
    norm_num
  · intro qa e
    have h7 : (7.01 : ℚ) > 7 := by norm_num
    constructor
    · rw [status_critical_iff]
      intro hc
      have := (criticalReasons_nil_iff qa 7.01 e).mp hc
      exact absurd this.2.1 (by norm_num)
    · rw [mem_pain_reason_iff]
      norm_num
  · intro qa e hqa he
    constructor
    · have hnil : criticalReasons (.finite qa) (.finite 3) e = [] :=
        (criticalReasons_nil_iff qa 3 e).mpr
          ⟨le_of_lt (lt_of_lt_of_le hqa (by norm_num)), by norm_num,
            by rcases he with h | h <;> rw [h] <;> decide⟩
      exact assess_warning hnil (by rintro ⟨-, h, -⟩; norm_num at h)
    · have hnil : criticalReasons (.finite qa) (.finite 2.99) e = [] :=
        (criticalReasons_nil_iff qa 2.99 e).mpr
          ⟨le_of_lt (lt_of_lt_of_le hqa (by norm_num)), by norm_num,
            by rcases he with h | h <;> rw [h] <;> decide⟩
      exact assess_good hnil hqa (by norm_num) he

/-- Witness for C4 at concrete boundary inputs. -/
theorem claim_strict_thresholds_witness :
    assess (.finite 5) (.finite 2) "None" =
      ⟨"Warning", ["介於 Good 與 Critical 之間，需持續追蹤"],
        "傷口狀況需注意，建議增加觀察頻率並留意疼痛與滲液變化。"⟩ ∧
    assess (.finite 5.01) (.finite 2) "None" =
      ⟨"Critical", ["傷口面積大於 5 cm²"],
        "傷口屬高風險狀態，建議儘速由專業醫療人員進行評估。"⟩ ∧
    assess (.finite 1) (.finite 3) "Light" =
      ⟨"Warning", ["介於 Good 與 Critical 之間，需持續追蹤"],
        "傷口狀況需注意，建議增加觀察頻率並留意疼痛與滲液變化。"⟩ :=
  ⟨claim_strict_thresholds.1 2 "None" (by norm_num) (by decide),
    claim_strict_thresholds.2.1 2 "None" (by norm_num) (by decide),
    (claim_strict_thresholds.2.2.2.2 1 "Light" (by norm_num) (Or.inr rfl)).1⟩

/-- C6 (code bug): the claimed propagation policy fails on the code —
converting a too-large integer wound area raises `OverflowError`, which the
validator's `except (TypeError, ValueError)` does not catch, so the
exception escapes `assess_wound_api` instead of any `ApiResponse`; on every
input whose validation returns, the API does return exactly one of the two
tagged shapes. -/
theorem claim_api_total_two_shapes :
    assess_wound_api (.int (10 ^ 400)) (.int 2) (.str "None") =
      .raised "OverflowError" ∧
    (∀ a p e : PyVal,
      assess_wound_api a p e = .raised "OverflowError" ∨
        ∃ r, validate_inputs a p e = .ok r ∧
          ((r.isValid = true ∧ assess_wound_api a p e =
              .ok (.success (assess r.area r.pain r.exudate))) ∨
           (r.isValid = false ∧ assess_wound_api a p e =
              .ok (.failure r.errorMsg)))) := by
  constructor
  · unfold assess_wound_api
    rw [validate_area_overflow (.int 2) (.str "None")
      (pyFloatConv_int_overflow (by norm_num))]
  · intro a p e
    rcases validate_total a p e with ⟨-, h⟩ | ⟨r, h⟩
    · left
      unfold assess_wound_api
      rw [h]
    · right
      refine ⟨r, h, ?_⟩
      unfold assess_wound_api
      rw [h]
      cases hv : r.isValid with
      | false =>
          right
          refine ⟨?_, ?_⟩ <;> simp [hv]
      | true =>
          left
          refine ⟨?_, ?_⟩ <;> simp [hv]

/-- C1: for float inputs and a string exudate, validation never raises, and
accepts iff the area is finite and non-negative, the pain is finite and in
[0, 10], and the trimmed, case-canonicalized exudate is one of
None/Light/Moderate/Heavy; on success it returns the two floats and the
canonical exudate string. -/
theorem claim_validate_accepts_iff (area pain : PyFloat) (ex : String) :
    (∃ r, validate_inputs (.float area) (.float pain) (.str ex) = .ok r) ∧
    ((∃ r, validate_inputs (.float area) (.float pain) (.str ex) = .ok r ∧
        r.isValid = true) ↔
      ((∃ qa : ℚ, area = .finite qa ∧ 0 ≤ qa) ∧
       (∃ qp : ℚ, pain = .finite qp ∧ 0 ≤ qp ∧ qp ≤ 10) ∧
       canonicalizeExudate ex ∈ VALID_EXUDATE_LEVELS)) ∧
    (∀ r, validate_inputs (.float area) (.float pain) (.str ex) = .ok r →
      r.isValid = true → r = ⟨true, "", area, pain, canonicalizeExudate ex⟩) := by
  refine ⟨?_, ?_, ?_⟩
  · exact validate_not_raised (by simp [pyFloatConv]) (by simp [pyFloatConv])
  · rw [validate_ok_isValid_iff]
    simp only [areaChecksPass_float, painChecksPass_float, exudateChecksPass_str]
  · intro r hr hv
    have hall := (validate_ok_isValid_iff (.float area) (.float pain) (.str ex)).mp
      ⟨r, hr, hv⟩
    obtain ⟨f, g, s, haf, hpg, hes, heq⟩ :=
      validate_success_shape hall.1 hall.2.1 hall.2.2
    simp only [pyFloatConv, FloatConv.ok.injEq] at haf hpg
    have hse : s = ex := by
      cases hes
      rfl
    rw [hr] at heq
    simp only [PyOutcome.ok.injEq] at heq
    rw [heq, ← haf, ← hpg, hse]
    rfl

/-- Witness for C1 at a concrete accepted input. -/
theorem claim_validate_accepts_iff_witness :
    validate_inputs (.float (.finite 1)) (.float (.finite 2)) (.str " heavy ") =
      .ok ⟨true, "", .finite 1, .finite 2, "Heavy"⟩ := by
  have h := claim_validate_accepts_iff (.finite 1) (.finite 2) " heavy "
  obtain ⟨r, hr, hv⟩ := h.2.1.mpr
    ⟨⟨1, rfl, by norm_num⟩, ⟨2, rfl, by norm_num, by norm_num⟩, by decide⟩
  have hre := h.2.2 r hr hv
  rw [hr, hre]
  decide

/-- C9: a non-string exudate value is always rejected with the string-type
error, whenever the area and pain fields pass their earlier checks. -/
theorem claim_nonstring_exudate_rejected (a p v : PyVal)
    (hv : v.isStr = false)
    (ha : areaChecksPass a = true) (hp : painChecksPass p = true) :
    validate_inputs a p v =
      .ok ⟨false, "exudateLevel 必須為字串（None/Light/Moderate/Heavy）",
        .finite 0, .finite 0, ""⟩ := by
  obtain ⟨f, haf, hf1, hf2⟩ := areaChecksPass_spec ha
  obtain ⟨g, hpg, hg1, hg4⟩ := painChecksPass_spec hp
  rw [validate_area_ok _ _ haf, validate_pain_ok _ _ hpg,
    validate_exu_nonstr hf1 hf2 hg1 hg4 hv]

/-- Witness for C9 at a numeric exudate whose string form would be valid. -/
theorem claim_nonstring_exudate_rejected_witness :
    validate_inputs (.int 1) (.int 2) (.float (.finite 3)) =
      .ok ⟨false, "exudateLevel 必須為字串（None/Light/Moderate/Heavy）",
        .finite 0, .finite 0, ""⟩ :=
  claim_nonstring_exudate_rejected (.int 1) (.int 2) (.float (.finite 3))
    (by decide)
    (by
      unfold areaChecksPass
      rw [pyFloatConv_int_of_lt (by norm_num) (by norm_num)]
      decide)
    (by
      unfold painChecksPass
      rw [pyFloatConv_int_of_lt (by norm_num) (by norm_num)]
      decide)

/-- C10: booleans are accepted as numeric at the public boundary — `True`
converts to 1.0 and `False` to 0.0 — so the API call with (True, True,
"None") succeeds with the classification of area 1.0 and pain 1.0. -/
theorem claim_bool_numeric_accepted :
    (∀ b : Bool, pyFloatConv (.bool b) = .ok (.finite (if b then 1 else 0))) ∧
    validate_inputs (.bool true) (.bool false) (.str "None") =
      .ok ⟨true, "", .finite 1, .finite 0, "None"⟩ ∧
    validate_inputs (.bool false) (.bool true) (.str "None") =
      .ok ⟨true, "", .finite 0, .finite 1, "None"⟩ ∧
    assess_wound_api (.bool true) (.bool true) (.str "None") =
      .ok (.success (assess (.finite 1) (.finite 1) "None")) ∧
    assess_wound_api (.bool true) (.bool true) (.str "None") =
      .ok (.success ⟨"Good", ["指標皆在穩定範圍"],
        "目前傷口狀況穩定，建議持續基本清潔與定期觀察。"⟩) := by
  refine ⟨?_, ?_, ?_, ?_, ?_⟩
  · intro b
    cases b <;> rfl
  · decide
  · decide
  · decide
  · decide

/-- C5 (code bug): the checks do run in the fixed order area → pain →
exudate with first-failure reporting — each conjunct below pins the reported
error to the first invalid field, independently of the later fields — but
the claim's "returns a single error" fails on an overflowing wound area:
`float(10**400)` raises an uncaught `OverflowError`, so validation raises
(still from the first field, whatever the later fields hold) instead of
returning the woundArea error. -/
theorem claim_validation_order_first_failure :
    (∀ p e : PyVal, validate_inputs (.int (10 ^ 400)) p e = .raised "OverflowError") ∧
    (∀ p e : PyVal, validate_inputs (.str "abc") p e =
      .ok ⟨false, "woundArea 必須為數字", .finite 0, .finite 0, ""⟩) ∧
    (∀ p e : PyVal, validate_inputs (.float .posInf) p e =
      .ok ⟨false, "woundArea 必須為有限數值", .finite 0, .finite 0, ""⟩) ∧
    (∀ p e : PyVal, validate_inputs (.int (-1)) p e =
      .ok ⟨false, "woundArea 不可為負數", .finite 0, .finite 0, ""⟩) ∧
    (∀ e : PyVal, validate_inputs (.int 1) (.str "xyz") e =
      .ok ⟨false, "painLevel 必須為數字", .finite 0, .finite 0, ""⟩) ∧
    (∀ e : PyVal, validate_inputs (.int 1) (.float .nan) e =
      .ok ⟨false, "painLevel 必須為有限數值", .finite 0, .finite 0, ""⟩) ∧
    (∀ e : PyVal, validate_inputs (.int 1) (.int 11) e =
      .ok ⟨false, "painLevel 超出範圍（0~10）", .finite 0, .finite 0, ""⟩) ∧
    validate_inputs (.int 1) (.int 2) (.int 7) =
      .ok ⟨false, "exudateLevel 必須為字串（None/Light/Moderate/Heavy）",
        .finite 0, .finite 0, ""⟩ ∧
    validate_inputs (.int 1) (.int 2) (.str "   ") =
      .ok ⟨false, "exudateLevel 不可為空", .finite 0, .finite 0, ""⟩ ∧
    validate_inputs (.int 1) (.int 2) (.str "HIGH") =
      .ok ⟨false, "exudateLevel 不在允許值（None/Light/Moderate/Heavy）",
        .finite 0, .finite 0, ""⟩ := by
  refine ⟨?_, ?_, ?_, ?_, ?_, ?_, ?_, ?_, ?_, ?_⟩
  · intro p e
    exact validate_area_overflow p e (pyFloatConv_int_overflow (by norm_num))
  · intro p e
    exact validate_area_caught p e (by decide)
  · intro p e
    exact validate_area_notFinite p e rfl
  · intro p e
    have hc : pyFloatConv (.int (-1)) = .ok (.finite (-1)) := by
      rw [pyFloatConv_int_of_lt (by norm_num) (by norm_num)]
      norm_num
    rw [validate_area_ok p e hc]
    exact validate_area_neg p e rfl (by decide)
  · intro e
    have hc : pyFloatConv (.int 1) = .ok (.finite 1) := by
      rw [pyFloatConv_int_of_lt (by norm_num) (by norm_num)]
      norm_num
    rw [validate_area_ok (.str "xyz") e hc]
    exact validate_pain_caught e rfl (by decide) (by decide)
  · intro e
    have hc : pyFloatConv (.int 1) = .ok (.finite 1) := by
      rw [pyFloatConv_int_of_lt (by norm_num) (by norm_num)]
      norm_num
    rw [validate_area_ok (.float .nan) e hc]
    exact validate_pain_notFinite e rfl (by decide) rfl
  · intro e
    have hc : pyFloatConv (.int 1) = .ok (.finite 1) := by
      rw [pyFloatConv_int_of_lt (by norm_num) (by norm_num)]
      norm_num
    have hc2 : pyFloatConv (.int 11) = .ok (.finite 11) := by
      rw [pyFloatConv_int_of_lt (by norm_num) (by norm_num)]
      norm_num
    rw [validate_area_ok (.int 11) e hc, validate_pain_ok (.finite 1) e hc2]
    exact validate_pain_range e rfl (by decide) rfl (by decide)
  · have hc : pyFloatConv (.int 1) = .ok (.finite 1) := by
      rw [pyFloatConv_int_of_lt (by norm_num) (by norm_num)]
      norm_num
    have hc2 : pyFloatConv (.int 2) = .ok (.finite 2) := by
      rw [pyFloatConv_int_of_lt (by norm_num) (by norm_num)]
      norm_num
    rw [validate_area_ok (.int 2) (.int 7) hc,
      validate_pain_ok (.finite 1) (.int 7) hc2]
    exact validate_exu_nonstr rfl (by decide) rfl (by decide) rfl
  · have hc : pyFloatConv (.int 1) = .ok (.finite 1) := by
      rw [pyFloatConv_int_of_lt (by norm_num) (by norm_num)]
      norm_num
    have hc2 : pyFloatConv (.int 2) = .ok (.finite 2) := by
      rw [pyFloatConv_int_of_lt (by norm_num) (by norm_num)]
      norm_num
    rw [validate_area_ok (.int 2) (.str "   ") hc,
      validate_pain_ok (.finite 1) (.str "   ") hc2]
    exact validate_exu_empty rfl (by decide) rfl (by decide) (by decide)
  · have hc : pyFloatConv (.int 1) = .ok (.finite 1) := by
      rw [pyFloatConv_int_of_lt (by norm_num) (by norm_num)]
      norm_num
    have hc2 : pyFloatConv (.int 2) = .ok (.finite 2) := by
      rw [pyFloatConv_int_of_lt (by norm_num) (by norm_num)]
      norm_num
    rw [validate_area_ok (.int 2) (.str "HIGH") hc,
      validate_pain_ok (.finite 1) (.str "HIGH") hc2]
    exact validate_exu_enum rfl (by decide) rfl (by decide) (by decide) (by decide)

/-- C8: exudate canonicalization (trim, then first letter upper and rest
lower) is idempotent, insensitive to surrounding whitespace and to letter
case — all such variants of a token normalize to the identical canonical
value — and strings with equal canonical forms validate identically. -/
theorem claim_canonicalization_idempotent :
    (∀ s : String, canonicalizeExudate (canonicalizeExudate s) = canonicalizeExudate s) ∧
    (∀ s : String, canonicalizeExudate (pyStrip s) = canonicalizeExudate s) ∧
    (∀ s t : String,
      (pyStrip s).data.map pyToLower = (pyStrip t).data.map pyToLower →
      canonicalizeExudate s = canonicalizeExudate t) ∧
    (canonicalizeExudate " heavy " = "Heavy" ∧ canonicalizeExudate "HEAVY" = "Heavy" ∧
      canonicalizeExudate "Heavy" = "Heavy") ∧
    (∀ s t : String, canonicalizeExudate s = canonicalizeExudate t →
      ∀ a p : PyVal, validate_inputs a p (.str s) = validate_inputs a p (.str t)) := by
  refine ⟨canonicalizeExudate_idem, canonicalizeExudate_pyStrip, ?_, ⟨?_, ?_, ?_⟩, ?_⟩
  · intro s t h
    exact congrArg String.mk (capList_map_lower_congr h)
  · decide
  · decide
  · decide
  · intro s t h a p
    exact validate_exudate_congr a p h

/-- Witness for C8: two whitespace/case variants of `heavy` validate
identically, and case variants canonicalize identically. -/
theorem claim_canonicalization_idempotent_witness :
    validate_inputs (.int 1) (.int 2) (.str " heavy ") =
      validate_inputs (.int 1) (.int 2) (.str "HEAVY") ∧
    canonicalizeExudate " LiGhT " = canonicalizeExudate "light" :=
  ⟨claim_canonicalization_idempotent.2.2.2.2 " heavy " "HEAVY" (by decide)
      (.int 1) (.int 2),
    claim_canonicalization_idempotent.2.2.1 " LiGhT " "light" (by decide)⟩

